import Mathlib

/-!
Verification of the library-management service (`library_service.py` and the
payment workflow of the `services` package) against its specification.

The Python business-logic functions are shallowly embedded as pure Lean
functions.  The persistent store is out of scope in the spec, so store reads
appear as explicit parameters (the looked-up book, the looked-up borrow
record, the current outstanding-borrow count, and success flags of store
writes), and store writes performed by a workflow are returned as an explicit
effect trace.  Timestamps are modelled as integers counting seconds, so that
the Python `timedelta.days` floor-division semantics is `Int` division by
86400 (Lean integer division on `Int` is Euclidean, which agrees with floor
division for the positive divisor 86400).  Python floats carrying currency
values are modelled as rationals; every monetary value reached by the code is
an exact multiple of one cent, for which float arithmetic and `round(x, 2)`
are exact, so the rational model is faithful on the reachable values.
-/

namespace LibraryService

/-- A catalog row, as produced by `insert_book` and read back by the lookups. -/
structure Book where
  title : String
  author : String
  isbn : String
  total_copies : Int
  available_copies : Int
deriving Repr, DecidableEq

/-- A row of the `borrow_records` table.  `return_date = none` models a SQL
NULL return date (an outstanding record). -/
structure BorrowRecord where
  patron_id : String
  book_id : Int
  borrow_date : Int
  due_date : Int
  return_date : Option Int
deriving Repr, DecidableEq

/-- The dictionary returned by `calculate_late_fee_for_book`. -/
structure FeeResult where
  fee_amount : ℚ
  days_overdue : Int
  status : String
deriving Repr, DecidableEq

/-- Pythons built-in `round` to zero decimal places: round half to even. -/
def roundHalfEven (q : ℚ) : Int :=
  let f := ⌊q⌋
  let frac := q - f
  if frac < 1/2 then f
  else if 1/2 < frac then f + 1
  else if f % 2 = 0 then f else f + 1

/-- Pythons `round(x, 2)`. -/
def round2 (q : ℚ) : ℚ :=
  (roundHalfEven (q * 100) : ℚ) / 100

/-- Pythons `str.strip()`: drop leading and trailing whitespace.  Stated on
the character list of the string so that it evaluates by kernel reduction. -/
def pyStrip (s : String) : List Char :=
  ((s.data.dropWhile (fun c => c.isWhitespace)).reverse.dropWhile
      (fun c => c.isWhitespace)).reverse

/-- The patron-id validation used throughout `library_service.py`:
`not patron_id or not patron_id.isdigit() or len(patron_id) != 6` negated. -/
def isValidPatronId (pid : String) : Bool :=
  !(pid.data.length == 0 || !(pid.data.all Char.isDigit) || pid.data.length != 6)

/-- The reference point of the fee calculation: `return_date` if present,
else the current time (`datetime.now()`), passed in as `now`. -/
def referencePoint (record : BorrowRecord) (now : Int) : Int :=
  record.return_date.getD now

/-- `days_overdue = (returned - due).days`: floor division of the elapsed
seconds by 86400, as Python `timedelta.days` computes it. -/
def daysOverdueOf (record : BorrowRecord) (now : Int) : Int :=
  (referencePoint record now - record.due_date) / 86400

/-- `calculate_late_fee_for_book` from `library_service.py`.  The SQL query
result (most recent borrow record of the patron/book pair, or none) and the
current time are explicit parameters. -/
def calculate_late_fee_for_book (record? : Option BorrowRecord) (now : Int) :
    FeeResult :=
  match record? with
  | none => { fee_amount := 0.0, days_overdue := 0, status := "No record found" }
  | some record =>
    let days_overdue := daysOverdueOf record now
    if days_overdue ≤ 0 then
      { fee_amount := 0.0, days_overdue := 0, status := "Returned on time" }
    else
      let fee : ℚ :=
        if days_overdue ≤ 7 then (days_overdue : ℚ) * 0.5
        else 3.5 + ((days_overdue : ℚ) - 7) * 1.0
      { fee_amount := round2 (min fee 15.0), days_overdue := days_overdue,
        status := "Overdue" }

/-- A returned record that is exactly `d` days overdue: due at time 0 and
returned at time `86400 * d`. -/
def overdueRecord (d : Int) : BorrowRecord :=
  { patron_id := "123456", book_id := 1, borrow_date := 0, due_date := 0,
    return_date := some (86400 * d) }

/-- The tiered fee policy as the specification words it: `daysOverdue × 0.50`
up to 7 days, `3.50 + (daysOverdue − 7) × 1.00` beyond, capped at 15.00
before rounding to 2 decimal places. -/
def tieredFeeSpec (d : Int) : ℚ :=
  round2 (min (if d ≤ 7 then (d : ℚ) * 0.5 else 3.5 + ((d : ℚ) - 7) * 1.0) 15.0)

lemma roundHalfEven_intCast (n : Int) : roundHalfEven (n : ℚ) = n := by
  simp [roundHalfEven]

lemma round2_cents (n : Int) : round2 ((n : ℚ) / 100) = (n : ℚ) / 100 := by
  have h : ((n : ℚ) / 100) * 100 = (n : ℚ) := by field_simp
  rw [round2, h, roundHalfEven_intCast]

lemma min_cents (a b : Int) :
    min ((a : ℚ) / 100) ((b : ℚ) / 100) = ((min a b : Int) : ℚ) / 100 := by
  rcases le_total a b with h | h <;>
    simp [min_def, h, div_le_div_iff_of_pos_right, (by norm_num : (0:ℚ) < 100),
      Int.cast_le.mpr h]

/-- The fee of the overdue branch, written as an exact number of cents. -/
def overdueCents (d : Int) : Int :=
  min (if d ≤ 7 then 50 * d else 100 * d - 350) 1500

lemma overdue_fee_amount (record : BorrowRecord) (now : Int)
    (hd : 0 < daysOverdueOf record now) :
    calculate_late_fee_for_book (some record) now =
      { fee_amount := ((overdueCents (daysOverdueOf record now) : Int) : ℚ) / 100,
        days_overdue := daysOverdueOf record now, status := "Overdue" } := by
  rw [calculate_late_fee_for_book]
  simp only [if_neg (not_le.mpr hd)]
  have hfee : (if daysOverdueOf record now ≤ 7 then
        ((daysOverdueOf record now : ℚ)) * 0.5
      else 3.5 + ((daysOverdueOf record now : ℚ) - 7) * 1.0)
      = (((if daysOverdueOf record now ≤ 7 then 50 * daysOverdueOf record now
          else 100 * daysOverdueOf record now - 350) : Int) : ℚ) / 100 := by
    split <;> push_cast <;> ring_nf
  rw [hfee]
  have h15 : (15.0 : ℚ) = ((1500 : Int) : ℚ) / 100 := by norm_num
  rw [h15, min_cents, round2_cents, overdueCents]

lemma daysOverdue_overdueRecord (d : Int) : daysOverdueOf (overdueRecord d) 0 = d := by
  simp [daysOverdueOf, referencePoint, overdueRecord]

lemma tieredFeeSpec_cents (d : Int) :
    tieredFeeSpec d = ((overdueCents d : Int) : ℚ) / 100 := by
  rw [tieredFeeSpec]
  have hfee : (if d ≤ 7 then ((d : ℚ)) * 0.5 else 3.5 + ((d : ℚ) - 7) * 1.0)
      = (((if d ≤ 7 then 50 * d else 100 * d - 350) : Int) : ℚ) / 100 := by
    split <;> push_cast <;> ring_nf
  rw [hfee]
  have h15 : (15.0 : ℚ) = ((1500 : Int) : ℚ) / 100 := by norm_num
  rw [h15, min_cents, round2_cents, overdueCents]

/-- An outstanding (never returned) record whose due date has not yet passed
at time 0. -/
def notYetDueRecord : BorrowRecord :=
  { patron_id := "123456", book_id := 1, borrow_date := 0, due_date := 86400,
    return_date := none }

lemma fee_on_time (record : BorrowRecord) (now : Int)
    (hd : daysOverdueOf record now ≤ 0) :
    calculate_late_fee_for_book (some record) now =
      { fee_amount := 0, days_overdue := 0, status := "Returned on time" } := by
  rw [calculate_late_fee_for_book]
  simp only [if_pos hd, FeeResult.mk.injEq]
  norm_num

/-- C1: for every borrow record whose computed days overdue is positive,
the fee of `calculate_late_fee_for_book` equals the tiered policy
`tieredFeeSpec` (0.50 per day up to 7 days, then 3.50 plus 1.00 per further
day, capped at 15.00 before rounding to two decimal places); and at 0, 1, 7,
8 and 20 days overdue the fees are 0.00, 0.50, 3.50, 4.50 and 15.00. -/
theorem calculate_fee_tiered_policy :
    (∀ (record : BorrowRecord) (now : Int), 0 < daysOverdueOf record now →
        (calculate_late_fee_for_book (some record) now).fee_amount
          = tieredFeeSpec (daysOverdueOf record now)) ∧
      (calculate_late_fee_for_book (some (overdueRecord 0)) 0).fee_amount = 0.00 ∧
      (calculate_late_fee_for_book (some (overdueRecord 1)) 0).fee_amount = 0.50 ∧
      (calculate_late_fee_for_book (some (overdueRecord 7)) 0).fee_amount = 3.50 ∧
      (calculate_late_fee_for_book (some (overdueRecord 8)) 0).fee_amount = 4.50 ∧
      (calculate_late_fee_for_book (some (overdueRecord 20)) 0).fee_amount = 15.00 := by
  refine ⟨?_, ?_, ?_, ?_, ?_, ?_⟩
  · intro record now hd
    rw [overdue_fee_amount record now hd, tieredFeeSpec_cents]
  · rw [fee_on_time _ _ (by rw [daysOverdue_overdueRecord])]
    norm_num
  · rw [overdue_fee_amount _ _ (by rw [daysOverdue_overdueRecord]; norm_num)]
    rw [daysOverdue_overdueRecord]
    norm_num [overdueCents]
  · rw [overdue_fee_amount _ _ (by rw [daysOverdue_overdueRecord]; norm_num)]
    rw [daysOverdue_overdueRecord]
    norm_num [overdueCents]
  · rw [overdue_fee_amount _ _ (by rw [daysOverdue_overdueRecord]; norm_num)]
    rw [daysOverdue_overdueRecord]
    norm_num [overdueCents]
  · rw [overdue_fee_amount _ _ (by rw [daysOverdue_overdueRecord]; norm_num)]
    rw [daysOverdue_overdueRecord]
    norm_num [overdueCents]

/-- Witness for C1 at a record 8 days overdue. -/
theorem calculate_fee_tiered_policy_witness :
    (calculate_late_fee_for_book (some (overdueRecord 8)) 0).fee_amount
      = tieredFeeSpec (daysOverdueOf (overdueRecord 8) 0) :=
  calculate_fee_tiered_policy.1 (overdueRecord 8) 0
    (by rw [daysOverdue_overdueRecord]; norm_num)

/-- C8: on every input, the result of `calculate_late_fee_for_book` has a fee
amount inside [0, 15.00] that is an exact multiple of one cent (2-decimal
precision), and a non-negative number of days overdue. -/
theorem calculate_fee_result_bounds (record? : Option BorrowRecord) (now : Int) :
    0 ≤ (calculate_late_fee_for_book record? now).fee_amount ∧
      (calculate_late_fee_for_book record? now).fee_amount ≤ 15 ∧
      (∃ cents : Int, (calculate_late_fee_for_book record? now).fee_amount
          = (cents : ℚ) / 100) ∧
      0 ≤ (calculate_late_fee_for_book record? now).days_overdue := by
  cases record? with
  | none =>
    rw [calculate_late_fee_for_book]
    refine ⟨by norm_num, by norm_num, ⟨0, by norm_num⟩, by norm_num⟩
  | some record =>
    by_cases hd : daysOverdueOf record now ≤ 0
    · rw [fee_on_time record now hd]
      refine ⟨by norm_num, by norm_num, ⟨0, by norm_num⟩, by norm_num⟩
    · push_neg at hd
      rw [overdue_fee_amount record now hd]
      have h0 : 0 ≤ overdueCents (daysOverdueOf record now) := by
        rw [overdueCents]; split <;> omega
      have h1 : overdueCents (daysOverdueOf record now) ≤ 1500 := by
        rw [overdueCents]; omega
      have hc0 : (0 : ℚ) ≤ (overdueCents (daysOverdueOf record now) : ℚ) := by
        exact_mod_cast h0
      have hc1 : (overdueCents (daysOverdueOf record now) : ℚ) ≤ 1500 := by
        exact_mod_cast h1
      exact ⟨by positivity, by rw [div_le_iff₀ (by norm_num : (0:ℚ) < 100)]; linarith,
        ⟨overdueCents (daysOverdueOf record now), rfl⟩, hd.le⟩

/-- C9: the fee calculation is a pure function of the record: when the return
date is present the result does not depend on the current time, and in
general the result depends only on the due and return timestamps of the
record, so repeated calls with no intervening return agree. -/
theorem calculate_fee_pure_idempotent :
    (∀ (record : BorrowRecord) (now₁ now₂ : Int),
        record.return_date.isSome = true →
        calculate_late_fee_for_book (some record) now₁
          = calculate_late_fee_for_book (some record) now₂) ∧
    (∀ (r₁ r₂ : BorrowRecord) (now : Int), r₁.due_date = r₂.due_date →
        r₁.return_date = r₂.return_date →
        calculate_late_fee_for_book (some r₁) now
          = calculate_late_fee_for_book (some r₂) now) := by
  constructor
  · intro record now₁ now₂ hret
    obtain ⟨t, ht⟩ := Option.isSome_iff_exists.mp hret
    simp only [calculate_late_fee_for_book, daysOverdueOf, referencePoint, ht,
      Option.getD_some]
  · intro r₁ r₂ now hdue hret
    simp only [calculate_late_fee_for_book, daysOverdueOf, referencePoint, hdue,
      hret]

/-- Witness for C9: moving the wall clock does not change the fee of a
returned record. -/
theorem calculate_fee_pure_idempotent_witness :
    calculate_late_fee_for_book (some (overdueRecord 3)) 0
      = calculate_late_fee_for_book (some (overdueRecord 3)) 999999 :=
  calculate_fee_pure_idempotent.1 (overdueRecord 3) 0 999999 rfl

/-- C10: whenever the computed days overdue of the looked-up record is at
most 0, the result is fee 0, days overdue 0 and status "Returned on time" —
also for an outstanding record that was never returned and is not yet past
its due date, so the label does not imply an actual return. -/
theorem calculate_fee_on_time_label :
    (∀ (record : BorrowRecord) (now : Int), daysOverdueOf record now ≤ 0 →
        calculate_late_fee_for_book (some record) now
          = { fee_amount := 0, days_overdue := 0, status := "Returned on time" }) ∧
    (∀ (record : BorrowRecord) (now : Int), record.return_date = none →
        now ≤ record.due_date →
        calculate_late_fee_for_book (some record) now
          = { fee_amount := 0, days_overdue := 0, status := "Returned on time" }) := by
  constructor
  · intro record now hd
    exact fee_on_time record now hd
  · intro record now hnone hle
    have h1 : now - record.due_date ≤ 0 := by omega
    have hd : daysOverdueOf record now ≤ 0 := by
      rw [daysOverdueOf, referencePoint, hnone, Option.getD_none]
      calc (now - record.due_date) / 86400
          ≤ 0 / 86400 := Int.ediv_le_ediv (by norm_num) h1
        _ = 0 := Int.zero_ediv 86400
    exact fee_on_time record now hd

/-- Witness for C10 at an outstanding record not yet past its due date. -/
theorem calculate_fee_on_time_label_witness :
    calculate_late_fee_for_book (some notYetDueRecord) 0
      = { fee_amount := 0, days_overdue := 0, status := "Returned on time" } :=
  calculate_fee_on_time_label.2 notYetDueRecord 0 rfl (by norm_num [notYetDueRecord])

/-! ## Catalog management -/

/-- `add_book_to_catalog` from `library_service.py`.  The store is the list
of existing books (consulted by `get_book_by_isbn`) and `insert_ok` is the
success flag of `insert_book`; the returned list is the catalog after the
call, so an unchanged catalog means nothing was inserted. -/
def add_book_to_catalog (catalog : List Book) (insert_ok : Bool)
    (title author isbn : String) (total_copies : Int) :
    Bool × String × List Book :=
  if pyStrip title = [] then
    (false, "Title is required.", catalog)
  else if (pyStrip title).length > 200 then
    (false, "Title must be less than 200 characters.", catalog)
  else if pyStrip author = [] then
    (false, "Author is required.", catalog)
  else if (pyStrip author).length > 100 then
    (false, "Author must be less than 100 characters.", catalog)
  else if isbn.data.length ≠ 13 then
    (false, "ISBN must be exactly 13 digits.", catalog)
  else if total_copies ≤ 0 then
    (false, "Total copies must be a positive integer.", catalog)
  else if catalog.any (fun b => b.isbn == isbn) then
    (false, "A book with this ISBN already exists.", catalog)
  else if insert_ok then
    (true, "Book \"" ++ String.mk (pyStrip title)
        ++ "\" has been successfully added to the catalog.",
      catalog ++ [{ title := String.mk (pyStrip title),
                    author := String.mk (pyStrip author), isbn := isbn,
                    total_copies := total_copies,
                    available_copies := total_copies }])
  else
    (false, "Database error occurred while adding the book.", catalog)

/-- C2 counterevidence: the source checks only `len(isbn) != 13`, so the
13-character all-letter string "abcdefghijklm" passes the ISBN format check:
the call succeeds and inserts a book, although the string contains no digit
at all and the validation message claims 13 digits are required. -/
theorem add_book_accepts_nondigit_isbn :
    (add_book_to_catalog [] true "T" "A" "abcdefghijklm" 1).1 = true ∧
      (add_book_to_catalog [] true "T" "A" "abcdefghijklm" 1).2.2 ≠ [] ∧
      "abcdefghijklm".data.all Char.isDigit = false ∧
      "abcdefghijklm".data.length = 13 := by
  refine ⟨by decide, by decide, by decide, by decide⟩

/-! ## Borrow workflow -/

/-- A store write performed by `borrow_book_by_patron`:
`insert_borrow_record` or `update_book_availability`. -/
inductive DBEffect where
  | insertBorrow (patron_id : String) (book_id : Int)
  | updateAvail (book_id : Int) (delta : Int)
deriving Repr, DecidableEq

/-- `borrow_book_by_patron` from `library_service.py`.  `book?` is the
result of `get_book_by_id`, `current_borrowed` the result of
`get_patron_borrow_count`, and `insert_ok` / `update_ok` the success flags
of the two store writes.  The writes the function performs are returned as
an effect trace in order.  (The success message of the source also carries
the formatted due date, which depends on the wall clock and is not
modelled.) -/
def borrow_book_by_patron (patron_id : String) (book_id : Int)
    (book? : Option Book) (current_borrowed : Int)
    (insert_ok update_ok : Bool) : Bool × String × List DBEffect :=
  if !(isValidPatronId patron_id) then
    (false, "Invalid patron ID. Must be exactly 6 digits.", [])
  else
    match book? with
    | none => (false, "Book not found.", [])
    | some book =>
      if book.available_copies ≤ 0 then
        (false, "This book is currently not available.", [])
      else if current_borrowed > 5 then
        (false, "You have reached the maximum borrowing limit of 5 books.", [])
      else if !insert_ok then
        (false, "Database error occurred while creating borrow record.",
          [DBEffect.insertBorrow patron_id book_id])
      else if !update_ok then
        (false, "Database error occurred while updating book availability.",
          [DBEffect.insertBorrow patron_id book_id,
           DBEffect.updateAvail book_id (-1)])
      else
        (true, "Successfully borrowed \"" ++ book.title ++ "\".",
          [DBEffect.insertBorrow patron_id book_id,
           DBEffect.updateAvail book_id (-1)])

/-- A concrete available book used by witnesses. -/
def demoBook : Book :=
  { title := "Demo", author := "Author", isbn := "1234567890123",
    total_copies := 3, available_copies := 3 }

/-- C3: with a valid patron id and an existing available book, the
borrow-limit check rejects exactly the patrons whose outstanding count
exceeds 5: a count of at least 6 yields a failure with the limit message and
an empty effect trace (no mutation), while any count of at most 5 (so also
exactly 5, allowing a sixth simultaneous borrow) passes the check and the
workflow goes on to attempt the borrow-record insert. -/
theorem borrow_limit_boundary (patron_id : String) (book_id : Int)
    (book : Book) (current_borrowed : Int) (insert_ok update_ok : Bool)
    (hpid : isValidPatronId patron_id = true)
    (havail : 0 < book.available_copies) :
    (6 ≤ current_borrowed →
        borrow_book_by_patron patron_id book_id (some book) current_borrowed
            insert_ok update_ok
          = (false, "You have reached the maximum borrowing limit of 5 books.",
              [])) ∧
      (current_borrowed ≤ 5 →
        (borrow_book_by_patron patron_id book_id (some book) current_borrowed
              insert_ok update_ok).2.2.head?
          = some (DBEffect.insertBorrow patron_id book_id)) := by
  constructor
  · intro hcnt
    rw [borrow_book_by_patron]
    simp only [hpid, Bool.not_true, Bool.false_eq_true, if_false,
      if_neg (not_le.mpr havail), if_pos (by omega : current_borrowed > 5)]
  · intro hcnt
    rw [borrow_book_by_patron]
    simp only [hpid, Bool.not_true, Bool.false_eq_true, if_false,
      if_neg (not_le.mpr havail), if_neg (by omega : ¬ current_borrowed > 5)]
    cases insert_ok <;> cases update_ok <;> simp

/-- Witness for C3: a sixth outstanding record (count 6) blocks the borrow
before any mutation; a count of 5 lets the workflow reach the insert. -/
theorem borrow_limit_boundary_witness :
    borrow_book_by_patron "123456" 1 (some demoBook) 6 true true
        = (false, "You have reached the maximum borrowing limit of 5 books.",
            []) ∧
      (borrow_book_by_patron "123456" 1 (some demoBook) 5 true true).2.2.head?
        = some (DBEffect.insertBorrow "123456" 1) :=
  ⟨(borrow_limit_boundary "123456" 1 demoBook 6 true true (by decide)
      (by decide)).1 (by decide),
   (borrow_limit_boundary "123456" 1 demoBook 5 true true (by decide)
      (by decide)).2 (by decide)⟩

/-- C4: on the mutation path (all preconditions pass), the borrow workflow
reports success exactly when both store writes succeed; a failed
borrow-record insert aborts with the record-insert error and without ever
attempting the availability decrement, and a failed decrement after a
successful insert still yields an overall failure. -/
theorem borrow_success_iff_both_mutations (patron_id : String) (book_id : Int)
    (book : Book) (current_borrowed : Int) (insert_ok update_ok : Bool)
    (hpid : isValidPatronId patron_id = true)
    (havail : 0 < book.available_copies)
    (hcnt : current_borrowed ≤ 5) :
    ((borrow_book_by_patron patron_id book_id (some book) current_borrowed
          insert_ok update_ok).1 = true
        ↔ insert_ok = true ∧ update_ok = true) ∧
      (insert_ok = false →
        borrow_book_by_patron patron_id book_id (some book) current_borrowed
            insert_ok update_ok
          = (false, "Database error occurred while creating borrow record.",
              [DBEffect.insertBorrow patron_id book_id])) ∧
      (insert_ok = true → update_ok = false →
        borrow_book_by_patron patron_id book_id (some book) current_borrowed
            insert_ok update_ok
          = (false, "Database error occurred while updating book availability.",
              [DBEffect.insertBorrow patron_id book_id,
               DBEffect.updateAvail book_id (-1)])) := by
  rw [borrow_book_by_patron]
  simp only [hpid, Bool.not_true, Bool.false_eq_true, if_false,
    if_neg (not_le.mpr havail), if_neg (by omega : ¬ current_borrowed > 5)]
  cases insert_ok <;> cases update_ok <;> simp

/-- Witness for C4: with a failing decrement after a successful insert the
workflow reports failure, while with both writes succeeding it reports
success. -/
theorem borrow_success_iff_both_mutations_witness :
    ((borrow_book_by_patron "123456" 1 (some demoBook) 0 true false).1 = true
        ↔ true = true ∧ false = true) ∧
      ((borrow_book_by_patron "123456" 1 (some demoBook) 0 true true).1 = true
        ↔ true = true ∧ true = true) :=
  ⟨(borrow_success_iff_both_mutations "123456" 1 demoBook 0 true false
      (by decide) (by decide) (by decide)).1,
   (borrow_success_iff_both_mutations "123456" 1 demoBook 0 true true
      (by decide) (by decide) (by decide)).1⟩

/-! ## Payment and refund workflow

The functions `pay_late_fees` and `refund_late_fee_payment` are imported
from `services.library_service` by the repository tests, but the source file
of the `services` package that defines them is not part of the repository
snapshot.  They are therefore modelled from the specification (section 4.4
of the spec) together with the behaviour the repository tests pin down, with
the gateway as an explicit collaborator parameter: `Except.error` models a
fault thrown by the gateway, `Except.ok` a returned response. -/

/-- The outcome of the payment workflow.  `gateway_called` records whether
`gateway.process_payment` was invoked. -/
structure PayOutcome where
  success : Bool
  message : String
  txn : Option String
  gateway_called : Bool
deriving Repr, DecidableEq

/-- The outcome of the refund workflow.  `gateway_called` records whether
`gateway.refund_payment` was invoked. -/
structure RefundOutcome where
  success : Bool
  message : String
  gateway_called : Bool
deriving Repr, DecidableEq

/-- Modelled from the spec: the transaction-reference validation of
`refund_late_fee_payment`, whose source is absent from the repository — a
non-empty identifier of the expected shape; the repository tests accept
"txn_123456" and reject "bad_txn", so references carrying the `txn_` tag
are the valid shape. -/
def isValidTransactionId (t : String) : Bool :=
  t.data.length != 0 && t.data.take 4 == ['t', 'x', 'n', '_']

/-- Modelled from the spec: `pay_late_fees` of `services.library_service`,
whose source is absent from the repository.  Following spec section 4.4 and
the repository tests: validate the patron id first, then the book lookup,
then the fee computed by the fee calculator; only then call the gateway,
whose thrown faults are caught and reported as a payment processing error.
`book?` is the book lookup result and `fee_amount` the fee computed by
`calculate_late_fee_for_book`. -/
def pay_late_fees (patron_id : String) (book? : Option Book) (fee_amount : ℚ)
    (gateway : Except String (Bool × Option String × String)) : PayOutcome :=
  if !(isValidPatronId patron_id) then
    { success := false, message := "Invalid patron ID. Must be exactly 6 digits.",
      txn := none, gateway_called := false }
  else
    match book? with
    | none =>
      { success := false, message := "Book not found.", txn := none,
        gateway_called := false }
    | some book =>
      if fee_amount = 0 then
        { success := false, message := "No late fees outstanding for this book.",
          txn := none, gateway_called := false }
      else
        match gateway with
        | Except.error e =>
          { success := false, message := "Payment processing error: " ++ e,
            txn := none, gateway_called := true }
        | Except.ok (false, _, msg) =>
          { success := false, message := "Payment failed: " ++ msg, txn := none,
            gateway_called := true }
        | Except.ok (true, ref, _) =>
          { success := true,
            message := "Payment successful for late fees on \"" ++ book.title
              ++ "\".",
            txn := ref, gateway_called := true }

/-- Modelled from the spec: `refund_late_fee_payment` of
`services.library_service`, whose source is absent from the repository.
Following spec section 4.4 and the repository tests: validate the
transaction reference, then require `0 < amount ≤ 15.00` (the fee ceiling),
and only then call the gateway, whose thrown faults are caught and reported
as a refund processing error. -/
def refund_late_fee_payment (transaction_id : String) (amount : ℚ)
    (gateway : Except String (Bool × String)) : RefundOutcome :=
  if !(isValidTransactionId transaction_id) then
    { success := false, message := "Invalid transaction ID.",
      gateway_called := false }
  else if amount ≤ 0 then
    { success := false, message := "Refund amount must be greater than 0.",
      gateway_called := false }
  else if amount > 15 then
    { success := false,
      message := "Refund amount exceeds the maximum late fee of 15.00.",
      gateway_called := false }
  else
    match gateway with
    | Except.error e =>
      { success := false, message := "Refund processing error: " ++ e,
        gateway_called := true }
    | Except.ok (false, msg) =>
      { success := false, message := "Refund failed: " ++ msg,
        gateway_called := true }
    | Except.ok (true, msg) =>
      { success := true, message := msg, gateway_called := true }

/-- C5: `pay_late_fees` never reaches the gateway when the patron id is not
a 6-digit numeric string, when the book lookup comes back empty, or when the
computed fee is 0; each of these cases fails with its specific message and
without a transaction reference. -/
theorem pay_late_fees_guards (patron_id : String) (book? : Option Book)
    (fee_amount : ℚ) (gateway : Except String (Bool × Option String × String)) :
    ((isValidPatronId patron_id = false ∨ book? = none ∨ fee_amount = 0) →
        (pay_late_fees patron_id book? fee_amount gateway).gateway_called = false
          ∧ (pay_late_fees patron_id book? fee_amount gateway).success = false
          ∧ (pay_late_fees patron_id book? fee_amount gateway).txn = none) ∧
      (isValidPatronId patron_id = false →
        (pay_late_fees patron_id book? fee_amount gateway).message
          = "Invalid patron ID. Must be exactly 6 digits.") ∧
      (isValidPatronId patron_id = true → book? = none →
        (pay_late_fees patron_id book? fee_amount gateway).message
          = "Book not found.") ∧
      (isValidPatronId patron_id = true → ∀ book, book? = some book →
        fee_amount = 0 →
        (pay_late_fees patron_id book? fee_amount gateway).message
          = "No late fees outstanding for this book.") := by
  refine ⟨?_, ?_, ?_, ?_⟩
  · rintro (hpid | hbook | hfee)
    · simp [pay_late_fees, hpid]
    · rcases h : isValidPatronId patron_id <;> simp [pay_late_fees, h, hbook]
    · rcases h : isValidPatronId patron_id <;> cases book? <;>
        simp [pay_late_fees, h, hfee]
  · intro hpid
    simp [pay_late_fees, hpid]
  · intro hpid hbook
    simp [pay_late_fees, hpid, hbook]
  · intro hpid book hbook hfee
    simp [pay_late_fees, hpid, hbook, hfee]

/-- Witness for C5 at the malformed patron id of the repository test. -/
theorem pay_late_fees_guards_witness :
    (pay_late_fees "12A45" (some demoBook) 4
        (Except.ok (true, some "txn_123", "Success"))).gateway_called = false
      ∧ (pay_late_fees "12A45" (some demoBook) 4
          (Except.ok (true, some "txn_123", "Success"))).success = false
      ∧ (pay_late_fees "12A45" (some demoBook) 4
          (Except.ok (true, some "txn_123", "Success"))).txn = none :=
  (pay_late_fees_guards "12A45" (some demoBook) 4
      (Except.ok (true, some "txn_123", "Success"))).1 (Or.inl (by decide))

/-- C6: a fault thrown by the gateway never escapes the payment or refund
workflow: whenever the gateway is actually called and faults, the workflow
returns an ordinary failure outcome naming a payment (resp. refund)
processing error. -/
theorem gateway_fault_caught :
    (∀ (patron_id : String) (book? : Option Book) (fee_amount : ℚ) (e : String),
        (pay_late_fees patron_id book? fee_amount
            (Except.error e)).gateway_called = true →
        pay_late_fees patron_id book? fee_amount (Except.error e)
          = { success := false, message := "Payment processing error: " ++ e,
              txn := none, gateway_called := true }) ∧
    (∀ (transaction_id : String) (amount : ℚ) (e : String),
        (refund_late_fee_payment transaction_id amount
            (Except.error e)).gateway_called = true →
        refund_late_fee_payment transaction_id amount (Except.error e)
          = { success := false, message := "Refund processing error: " ++ e,
              gateway_called := true }) := by
  constructor
  · intro patron_id book? fee_amount e hcalled
    rw [pay_late_fees.eq_def] at hcalled ⊢
    cases hp : isValidPatronId patron_id
    · simp [hp] at hcalled
    · cases book? with
      | none => simp [hp] at hcalled
      | some book =>
        by_cases hf : fee_amount = 0
        · simp [hp, hf] at hcalled
        · simp [hp, hf]
  · intro transaction_id amount e hcalled
    rw [refund_late_fee_payment.eq_def] at hcalled ⊢
    cases ht : isValidTransactionId transaction_id
    · simp [ht] at hcalled
    · by_cases h0 : amount ≤ 0
      · simp [ht, h0] at hcalled
      · by_cases h15 : amount > 15
        · simp [ht, h0, h15] at hcalled
        · simp [ht, h0, h15]

/-- Witness for C6: a gateway timeout during a well-formed payment and a
well-formed refund is converted into a processing-error outcome. -/
theorem gateway_fault_caught_witness :
    pay_late_fees "123456" (some demoBook) 10 (Except.error "Timeout")
        = { success := false, message := "Payment processing error: Timeout",
            txn := none, gateway_called := true } ∧
      refund_late_fee_payment "txn_123456" 5 (Except.error "Timeout error")
        = { success := false,
            message := "Refund processing error: Timeout error",
            gateway_called := true } :=
  ⟨gateway_fault_caught.1 "123456" (some demoBook) 10 "Timeout" (by decide),
   gateway_fault_caught.2 "txn_123456" 5 "Timeout error" (by decide)⟩

/-- C7: the refund workflow rejects every amount outside (0, 15.00] without
calling the gateway, and conversely the gateway is only ever reached with a
valid transaction reference and an amount inside (0, 15.00]. -/
theorem refund_amount_bounds (transaction_id : String) (amount : ℚ)
    (gateway : Except String (Bool × String)) :
    ((amount ≤ 0 ∨ 15 < amount) →
        (refund_late_fee_payment transaction_id amount gateway).success = false
          ∧ (refund_late_fee_payment transaction_id amount
              gateway).gateway_called = false) ∧
      ((refund_late_fee_payment transaction_id amount gateway).gateway_called
          = true →
        isValidTransactionId transaction_id = true ∧ 0 < amount ∧ amount ≤ 15) := by
  constructor
  · rintro (h0 | h15) <;> rw [refund_late_fee_payment.eq_def] <;>
      cases h : isValidTransactionId transaction_id
    · simp [h]
    · simp [h, h0]
    · simp [h]
    · simp [h, (by linarith : ¬ amount ≤ 0), h15]
  · intro hcalled
    rw [refund_late_fee_payment.eq_def] at hcalled
    cases h : isValidTransactionId transaction_id
    · simp [h] at hcalled
    · by_cases h0 : amount ≤ 0
      · simp [h, h0] at hcalled
      · by_cases h15 : amount > 15
        · simp [h, h0, h15] at hcalled
        · exact ⟨rfl, by linarith [not_le.mp h0], by linarith [not_lt.mp h15]⟩

/-- Witness for C7: the over-cap amount 20.00 of the repository test is
rejected without a gateway call. -/
theorem refund_amount_bounds_witness :
    (refund_late_fee_payment "txn_123456" 20
          (Except.ok (true, "Refund OK"))).success = false
      ∧ (refund_late_fee_payment "txn_123456" 20
          (Except.ok (true, "Refund OK"))).gateway_called = false :=
  (refund_amount_bounds "txn_123456" 20 (Except.ok (true, "Refund OK"))).1
    (Or.inr (by norm_num))

end LibraryService
